import Mathlib

/-!
Verification development for the aperture-kernel module of the EPIC
repository (`src/modules/aperture.py`).

The Python module is embedded shallowly:

* numpy arrays of rationals are modelled by `NDArr` (a shape together with
  the row-major flat data);
* Python scalars are modelled by `ℚ` where the code only compares and
  copies them, and real-number semantics (`Real.cos`, `Real.sin`,
  `Complex.exp`) is used for the trigonometric kernel mathematics;
* Python exceptions are modelled by `Except Err`;
* the Python dictionaries returned by the validators are modelled by
  structures whose fields are `Option`-valued exactly when the source may
  leave the corresponding key unset.

Vintage numpy boolean indexing (mask converted through `nonzero`) is
modelled by `boolIndex`: a `True` at a position that is out of bounds for
the indexed array raises `IndexError`, which agrees with every numpy
version on the inputs used below.
-/

namespace EPIC

/-- Error kinds raised by the Python code: `TypeError`, `ValueError`,
`KeyError` (failed dictionary access) and `IndexError` (out-of-bounds numpy
indexing). -/
inductive Err where
  | typeError (msg : String)
  | valueError (msg : String)
  | keyError (key : String)
  | indexError
  deriving DecidableEq

/-- Result of a Python computation that may raise. -/
abbrev Res (α : Type) : Type := Except Err α

/-- Model of a numpy array of floats: a shape and the row-major flat data.
The well-formedness `NDArr.wf` (data length equals the product of the
shape) is carried as a hypothesis where needed. -/
structure NDArr where
  shape : List Nat
  data : List ℚ
  deriving DecidableEq

namespace NDArr

/-- Number of dimensions (`arr.ndim`). -/
def ndim (a : NDArr) : Nat := a.shape.length

/-- Total number of elements (`arr.size`). -/
def size (a : NDArr) : Nat := a.shape.prod

/-- numpy `squeeze`: drop all axes of extent 1; the flat data is unchanged. -/
def squeeze (a : NDArr) : NDArr := ⟨a.shape.filter (fun d => d ≠ 1), a.data⟩

/-- Well-formedness: the flat data has exactly as many entries as the shape
prescribes. -/
def wf (a : NDArr) : Prop := a.data.length = a.shape.prod

end NDArr

/-- Split a list into consecutive chunks of `n` elements (the rows of a
row-major array whose last axis has extent `n`). -/
def chunkRows {α : Type} (n : Nat) (l : List α) : List (List α) :=
  match l with
  | [] => []
  | x :: xs =>
    if _h : n = 0 then []
    else (x :: xs).take n :: chunkRows n ((x :: xs).drop n)
termination_by l.length
decreasing_by
  simp only [List.length_drop, List.length_cons]
  omega

/-- numpy `locs[:, :, 0]` on a 3-dimensional array (`aperture.py` line 237):
keep the first entry of the trailing axis.  Indexing position 0 of an axis
of extent 0 raises `IndexError`. -/
def sel3 (a : NDArr) : Res NDArr :=
  match a.shape with
  | [d0, d1, d2] =>
    if d2 = 0 then throw Err.indexError
    else pure ⟨[d0, d1], (chunkRows d2 a.data).map (fun r => r.headD 0)⟩
  | _ => throw Err.indexError

/-- numpy `locs[:, :2]` on a 2-dimensional array (`aperture.py` line 239):
keep the first two columns. -/
def truncCols (a : NDArr) : NDArr :=
  match a.shape with
  | [m, n] => ⟨[m, 2], ((chunkRows n a.data).map (fun r => r.take 2)).flatten⟩
  | _ => a

/-- numpy `reshape(-1, 2)` (`aperture.py` line 241). -/
def reshapeM2 (a : NDArr) : Res NDArr :=
  if a.size % 2 = 0 then pure ⟨[a.size / 2, 2], a.data⟩
  else throw (Err.valueError ("total size of new array must be unchanged"))

/-- Normalization branch for `locs` in `inputcheck` (`aperture.py` lines
224-239): squeeze, check the number of dimensions, then reduce to a
2-dimensional array with at most two columns. -/
def normLocsBranch (locs0 : NDArr) : Res NDArr := do
  let locs := locs0.squeeze
  if locs.ndim < 1 ∨ 3 < locs.ndim then
    throw (Err.valueError ("locs must be a one-, two- or three-dimensional array"))
  if locs.ndim = 1 then
    if locs.size < 2 ∨ 3 < locs.size then
      throw (Err.valueError ("locs must contain at least two elements and not more than three elements"))
    pure ⟨[1, 2], locs.data.take 2⟩
  else do
    let locs ← if locs.ndim = 3 then sel3 locs else pure locs
    pure (if 2 < locs.shape.getD 1 0 then truncCols locs else locs)

/-- Full `locs` normalization as stored in the output record
(`aperture.py` lines 224-241): the branch above followed by
`reshape(-1, 2)`. -/
def normalizeLocs (locs0 : NDArr) : Res NDArr := do
  let b ← normLocsBranch locs0
  reshapeM2 b

/-- Output record of `parmscheck`: the Python function stores every key
(`aperture.py` lines 101-125), so no field is optional.  `pointing_center`
is held as the two direction cosines. -/
structure ParmsDict where
  xmax : ℚ
  ymax : ℚ
  rmin : ℚ
  rmax : ℚ
  rotangle : ℚ
  pointing_center : ℚ × ℚ
  deriving DecidableEq

/-- Embedding of `parmscheck` (`aperture.py` lines 7-127).  The
`isinstance` scalar checks of lines 71-79, 86-94 and 107-110 hold by
typing; `pointing_center` arrives as an already-squeezed flat list of
entries (squeezing does not change the flat data), with `none` standing
for the Python default `None`. -/
def parmscheck (xmax ymax rmin rmax rotangle : ℚ)
    (pointing_center : Option (List ℚ)) : Res ParmsDict :=
  if xmax ≤ 0 then throw (Err.valueError ("xmax must be positive"))
  else if ymax ≤ 0 then throw (Err.valueError ("ymax must be positive"))
  else
    let rmin := if rmin < 0 then 0 else rmin
    if rmax ≤ rmin then throw (Err.valueError ("rmin must be less than rmax"))
    else
      match pointing_center with
      | some l =>
        match l with
        | [a, b] =>
          if 1 < a ^ 2 + b ^ 2 then
            throw (Err.valueError ("pointing center incompatible with rules of direction cosines"))
          else pure ⟨xmax, ymax, rmin, rmax, rotangle, (a, b)⟩
        | _ => throw (Err.valueError ("pointing center must be a 2-element numpy array"))
      | none => pure ⟨xmax, ymax, rmin, rmax, rotangle, (0, 0)⟩

/-- Wavelength argument of `inputcheck`: a Python scalar or a numpy
array. -/
inductive WLArg where
  | scal (q : ℚ)
  | arr (a : NDArr)
  deriving DecidableEq

/-- Output record of `inputcheck`.  The Python function stores the keys
`locs`, `wavelength`, `xmax`, `ymax`, `rmax`, `rotangle` and
`pointing_center` (`aperture.py` lines 241-261); crucially it never stores
an `rmin` key, so that field of the record is always `none`, and a later
dictionary access raises `KeyError`. -/
structure InpDict where
  locs : NDArr
  wavelength : List ℚ
  xmax : Option ℚ
  ymax : Option ℚ
  rmin : Option ℚ
  rmax : Option ℚ
  rotangle : Option ℚ
  pointing_center : Option (ℚ × ℚ)
  deriving DecidableEq

/-- Python dictionary access `d[key]`: raises `KeyError` when the key was
never stored. -/
def getKey {α : Type} (key : String) : Option α → Res α
  | some v => pure v
  | none => throw (Err.keyError key)

/-- Embedding of `inputcheck` (`aperture.py` lines 131-263).  Note two
facts taken directly from the source: line 254 calls `parmscheck` without
forwarding the caller's `rmin` and `rmax` (so the defaults `0.0` and `1.0`
are validated in their place), and lines 257-261 copy every `parmscheck`
output key except `rmin` into the returned record.  The wavelength size is
compared against the branch-local `locs.shape[0]` of line 247, which is
the row count before the final `reshape(-1, 2)`. -/
def inputcheck (locs : NDArr) (wavelength : WLArg)
    (xmax ymax rmin rmax rotangle : ℚ)
    (pointing_center : Option (List ℚ)) : Res InpDict := do
  let locsB ← normLocsBranch locs
  let locsN ← reshapeM2 locsB
  let wl : List ℚ := match wavelength with
    | WLArg.scal q => [q]
    | WLArg.arr a => a.data
  if wl.length ≠ 1 ∧ wl.length ≠ locsB.shape.headD 0 then
    throw (Err.valueError ("Dimensions of wavelength are incompatible with those of locs"))
  if wl.any (fun q => q ≤ 0) then
    throw (Err.valueError ("wavelength(s) must be positive"))
  let parmsdict ← parmscheck xmax ymax 0 1 rotangle pointing_center
  let _ := rmin
  let _ := rmax
  pure { locs := locsN, wavelength := wl,
         xmax := some parmsdict.xmax, ymax := some parmsdict.ymax,
         rmin := none,
         rmax := some parmsdict.rmax, rotangle := some parmsdict.rotangle,
         pointing_center := some parmsdict.pointing_center }

/-- Rows of a normalized M-by-2 locations array as coordinate pairs, used
to feed the kernel mathematics. -/
def toPairs (a : NDArr) : List (ℚ × ℚ) :=
  (chunkRows 2 a.data).map (fun r => (r.headD 0, r.getD 1 0))

/-- Vintage numpy boolean indexing `a[mask]` (as used on `wavelength[ind]`
at `aperture.py` lines 338 and 450): the mask is converted to the
positions of its `True` entries and a position that is out of bounds for
`a` raises `IndexError`.  When the mask has the same length as `a` this is
ordinary mask selection. -/
def boolIndex {α : Type} : List α → List Bool → Res (List α)
  | _, [] => pure []
  | [], b :: bs => if b then throw Err.indexError else boolIndex [] bs
  | x :: xs, b :: bs => do
    let rest ← boolIndex xs bs
    pure (if b then x :: rest else rest)

/-- Mask selection `a[mask]` for a mask of the same length as `a` (used for
`locs[ind, :]`, whose mask always has exactly one entry per row). -/
def maskSelect {α : Type} : List α → List Bool → List α
  | x :: xs, b :: bs => if b then x :: maskSelect xs bs else maskSelect xs bs
  | _, _ => []

/-- Scatter assignment `kern[ind] = vals` into an array of zeros
(`aperture.py` lines 326 and 338): positions where the mask is `True`
receive the successive values, the rest stay `0`. -/
def scatter : List Bool → List ℂ → List ℂ
  | [], _ => []
  | b :: bs, vals =>
    if b then vals.headD 0 :: scatter bs vals.tail else 0 :: scatter bs vals

/-- Result of an analytic kernel: complex-valued, or real-valued after the
dtype collapse of `aperture.py` lines 340-343 and 452-454. -/
inductive KernOut where
  | cplx (kern : List ℂ)
  | rl (kern : List ℝ)

open Classical in
/-- Dtype collapse (`aperture.py` lines 340-343): if every imaginary part
is smaller in magnitude than `1e-10`, the kernel is returned as its real
parts. -/
noncomputable def collapse (kern : List ℂ) : KernOut :=
  if ∀ z ∈ kern, |z.im| < 1e-10 then KernOut.rl (kern.map Complex.re)
  else KernOut.cplx kern

/-- Rectangular footprint membership (`aperture.py` line 337): the four
inclusive comparisons against `xmin = -xmax`, `xmax`, `ymin = -ymax`,
`ymax`, applied to a rotated location. -/
def inRect (xmax ymax : ℚ) (p : ℝ × ℝ) : Prop :=
  (-(xmax : ℝ) ≤ p.1 ∧ p.1 ≤ (xmax : ℝ)) ∧ (-(ymax : ℝ) ≤ p.2 ∧ p.2 ≤ (ymax : ℝ))

/-- Effective rotation angle of `rect` (`aperture.py` lines 327-328): an
extra `π/2` is added when `ymax > xmax`. -/
noncomputable def rectRotangle (xmax ymax rotangle : ℚ) : ℝ :=
  if ymax > xmax then (rotangle : ℝ) + Real.pi / 2 else (rotangle : ℝ)

/-- Rotation of a location by `-rotangle` (`aperture.py` lines 330-335):
the row `(x, y)` multiplied by the transpose of the rotation matrix
`[[cos(-θ), -sin(-θ)], [sin(-θ), cos(-θ)]]`. -/
noncomputable def invRotate (θ : ℝ) (p : ℚ × ℚ) : ℝ × ℝ :=
  ((p.1 : ℝ) * Real.cos (-θ) - (p.2 : ℝ) * Real.sin (-θ),
   (p.1 : ℝ) * Real.sin (-θ) + (p.2 : ℝ) * Real.cos (-θ))

/-- Phase factor stored at a selected location (`aperture.py` lines 338 and
450): `exp(-1j * 2π/wavelength * dot(loc, pointing_center))`, where `loc`
is the (already rotated, in the case of `rect`) row fed to the dot
product. -/
noncomputable def phaseFactor (w : ℚ) (p : ℝ × ℝ) (pc : ℚ × ℚ) : ℂ :=
  Complex.exp (-Complex.I *
    (((2 * Real.pi / (w : ℝ)) * (p.1 * (pc.1 : ℝ) + p.2 * (pc.2 : ℝ)) : ℝ) : ℂ))

open Classical in
/-- Core of `rect` after input validation (`aperture.py` lines 326-338):
rotate the locations into the aperture frame, test footprint membership,
index the wavelengths by the boolean mask and scatter the phase factors
into a kernel of zeros. -/
noncomputable def rectCore (locs : List (ℚ × ℚ)) (wavelength : List ℚ)
    (xmax ymax rotangle : ℚ) (pointing_center : ℚ × ℚ) : Res (List ℂ) := do
  let θ := rectRotangle xmax ymax rotangle
  let rlocs := locs.map (invRotate θ)
  let mask := rlocs.map (fun p => if inRect xmax ymax p then true else false)
  let wlInd ← boolIndex wavelength mask
  let locsInd := maskSelect rlocs mask
  pure (scatter mask
    (List.zipWith (fun w p => phaseFactor w p pointing_center) wlInd locsInd))

/-- Embedding of `rect` (`aperture.py` lines 267-344): validate the inputs,
read the needed entries of the returned record, run the rectangular kernel
core and apply the dtype collapse. -/
noncomputable def rect (locs : NDArr) (wavelength : WLArg)
    (xmax ymax rotangle : ℚ) (pointing_center : Option (List ℚ)) :
    Res KernOut := do
  let inpdict ← inputcheck locs wavelength xmax ymax 0 1 rotangle pointing_center
  let locsL := toPairs inpdict.locs
  let wl := inpdict.wavelength
  let xmax ← getKey ("xmax") inpdict.xmax
  let ymax ← getKey ("ymax") inpdict.ymax
  let rotangle ← getKey ("rotangle") inpdict.rotangle
  let pc ← getKey ("pointing_center") inpdict.pointing_center
  let kern ← rectCore locsL wl xmax ymax rotangle pc
  pure (collapse kern)

/-- Embedding of `square` (`aperture.py` lines 348-393): a rectangle with
`ymax = xmax`. -/
noncomputable def square (locs : NDArr) (wavelength : WLArg)
    (xmax rotangle : ℚ) (pointing_center : Option (List ℚ)) : Res KernOut :=
  rect locs wavelength xmax xmax rotangle pointing_center

open Classical in
/-- Circular (annulus) membership core after input validation
(`aperture.py` lines 446-456). -/
noncomputable def circularCore (locs : List (ℚ × ℚ)) (wavelength : List ℚ)
    (rmin rmax : ℚ) (pointing_center : ℚ × ℚ) : Res (List ℂ) := do
  let radii := locs.map (fun p => Real.sqrt (((p.1 : ℝ)) ^ 2 + ((p.2 : ℝ)) ^ 2))
  let mask := radii.map (fun r => if (rmin : ℝ) ≤ r ∧ r ≤ (rmax : ℝ) then true else false)
  let wlInd ← boolIndex wavelength mask
  let locsInd := maskSelect locs mask
  pure (scatter mask
    (List.zipWith (fun w p => phaseFactor w ((p.1 : ℝ), (p.2 : ℝ)) pointing_center) wlInd locsInd))

/-- Embedding of `circular` (`aperture.py` lines 397-456).  The reads of
lines 440-444 happen in source order: the access `inpdict['rmin']` at
line 442 is reached before any kernel mathematics, and since `inputcheck`
never stores that key, it raises `KeyError` on every call. -/
noncomputable def circular (locs : NDArr) (wavelength : WLArg)
    (rmin rmax : ℚ) (pointing_center : Option (List ℚ)) : Res KernOut := do
  let inpdict ← inputcheck locs wavelength 1 1 rmin rmax 0 pointing_center
  let locsL := toPairs inpdict.locs
  let wl := inpdict.wavelength
  let rmin ← getKey ("rmin") inpdict.rmin
  let rmax ← getKey ("rmax") inpdict.rmax
  let pc ← getKey ("pointing_center") inpdict.pointing_center
  let kern ← circularCore locsL wl rmin rmax pc
  pure (collapse kern)

/-- Pair of per-polarization values, one for each of the two recognized
channels `P1` and `P2` (the Python code keeps them in dictionaries keyed by
those strings). -/
structure PolDict (α : Type) where
  p1 : α
  p2 : α

/-- Read the entry of a polarization dictionary; only called with the
recognized labels. -/
def PolDict.get {α : Type} (d : PolDict α) (p : String) : α :=
  if p = "P2" then d.p2 else d.p1

/-- Modelled from the spec: the external Lookup Table Provider
(`lookup_operations.read_lookup`, which is not under `src/`) parses a
persisted lookup file into columns of x positions, y positions, real
weights and an optional imaginary-weight column (spec sections 4.3 and 6).
An `LkpFile` value stands for the parsed contents of one lookup file. -/
structure LkpFile where
  xcol : List ℚ
  ycol : List ℚ
  wtsre : List ℚ
  wtsim : Option (List ℚ)

/-- Modelled from the spec: `LKP.read_lookup` returns the parsed columns of
the lookup file (spec section 4.3). -/
def read_lookup (f : LkpFile) : LkpFile := f

/-- Cache contents built from a lookup file (`aperture.py` lines 709-713
and 804-808): `wtsposxy` is the horizontal stack of the x and y columns,
and `wtsxy` is the real weight column, plus `1j` times the fourth column
when it is present. -/
noncomputable def loadWts (f : LkpFile) : List (ℚ × ℚ) × List ℂ :=
  (f.xcol.zip f.ycol,
   match f.wtsim with
   | none => f.wtsre.map (fun q => ((q : ℝ) : ℂ))
   | some im => List.zipWith (fun a b => ((a : ℝ) : ℂ) + Complex.I * ((b : ℝ) : ℂ)) f.wtsre im)

/-- Per-polarization shape parameters as passed to the constructor, each
key individually optional (`aperture.py` lines 668-673 fill in the missing
ones). -/
structure ParmsIn where
  rmin : Option ℚ := none
  xmax : Option ℚ := none
  ymax : Option ℚ := none
  rmax : Option ℚ := none
  rotangle : Option ℚ := none

/-- Fill the defaulted shape parameters of one polarization
(`aperture.py` lines 650-673): returns
`(rmin, xmax, ymax, rmax, rotangle)`. -/
def fillParms : Option ParmsIn → ℚ × ℚ × ℚ × ℚ × ℚ
  | none => (0, 1, 1, 1, 0)
  | some p =>
    (p.rmin.getD 0, p.xmax.getD 1, p.ymax.getD 1, p.rmax.getD 1, p.rotangle.getD 0)

/-- State of an `AntennaAperture` instance (`aperture.py` lines 679-713).
The Python code stores `wtsposxy[pol] = None` only when a lookup source
dictionary was supplied; since the cache fields are only ever read behind
a `pol in self.lkpinfo` guard, an absent key and a stored `None` are
observationally equal and both are modelled by `none`. -/
structure AntennaAperture where
  kernel_type : PolDict String
  shape : PolDict (Option String)
  rmin : PolDict ℚ
  xmax : PolDict ℚ
  ymax : PolDict ℚ
  rmax : PolDict ℚ
  rotangle : PolDict ℚ
  wtsposxy : PolDict (Option (List (ℚ × ℚ)))
  wtsxy : PolDict (Option (List ℂ))
  lkpinfo : PolDict (Option LkpFile)

/-- Normalize the `kernel_type` entry of one polarization
(`aperture.py` lines 615-626): a missing key defaults to `lookup`, and a
present value must be `lookup` or `func`. -/
def ktEntry : Option String → Res String
  | none => pure ("lookup")
  | some v =>
    if v = "lookup" ∨ v = "func" then pure v
    else throw (Err.valueError ("Invalid value specified for kernel_type under polarization"))

/-- Normalize the `shape` entry of one polarization given its kernel type
(`aperture.py` lines 628-648): a missing key defaults to `None` under
`lookup` and to `circular` under `func`; a present key requires kernel
type `func` and one of the three recognized shapes. -/
def shapeEntry (kt : String) : Option String → Res (Option String)
  | none => if kt = "lookup" then pure none else pure (some ("circular"))
  | some s =>
    if kt ≠ "func" then
      throw (Err.valueError ("Values specified in kernel_type and shape are incompatible"))
    else if s = "rect" ∨ s = "square" ∨ s = "circular" then pure (some s)
    else throw (Err.valueError ("Invalid value specified for shape under polarization"))

/-- Lookup fields of one polarization at construction time
(`aperture.py` lines 700-713): returns `(wtsposxy, wtsxy, lkpinfo)` for
that polarization. -/
noncomputable def lkpEntry (load_lookup : Bool) :
    Option LkpFile → Option (List (ℚ × ℚ)) × Option (List ℂ) × Option LkpFile
  | none => (none, none, none)
  | some f =>
    if load_lookup then
      let d := loadWts (read_lookup f)
      (some d.1, some d.2, some f)
    else (none, none, some f)

/-- Embedding of `AntennaAperture.__init__` (`aperture.py` lines 541-713).
The `isinstance` dictionary checks hold by typing; missing dictionary keys
are modelled by `none` fields of the per-polarization pair. -/
noncomputable def AntennaAperture.init
    (kernel_type : Option (PolDict (Option String)))
    (shape : Option (PolDict (Option String)))
    (parms : Option (PolDict (Option ParmsIn)))
    (lkpinfo : Option (PolDict (Option LkpFile)))
    (load_lookup : Bool) : Res AntennaAperture := do
  let kt1 ← match kernel_type with
    | none => pure ("lookup")
    | some d => ktEntry d.p1
  let kt2 ← match kernel_type with
    | none => pure ("lookup")
    | some d => ktEntry d.p2
  let sh1 ← match shape with
    | none => if kt1 = "lookup" then pure none else pure (some ("circular"))
    | some d => shapeEntry kt1 d.p1
  let sh2 ← match shape with
    | none => if kt2 = "lookup" then pure none else pure (some ("circular"))
    | some d => shapeEntry kt2 d.p2
  let pv1 := fillParms (match parms with | none => none | some d => d.p1)
  let pv2 := fillParms (match parms with | none => none | some d => d.p2)
  let pd1 ← parmscheck pv1.2.1 pv1.2.2.1 pv1.1 pv1.2.2.2.1 pv1.2.2.2.2 none
  let pd2 ← parmscheck pv2.2.1 pv2.2.2.1 pv2.1 pv2.2.2.2.1 pv2.2.2.2.2 none
  let lk1 := match lkpinfo with
    | none => ((none, none, none) : Option (List (ℚ × ℚ)) × Option (List ℂ) × Option LkpFile)
    | some d => lkpEntry load_lookup d.p1
  let lk2 := match lkpinfo with
    | none => ((none, none, none) : Option (List (ℚ × ℚ)) × Option (List ℂ) × Option LkpFile)
    | some d => lkpEntry load_lookup d.p2
  pure { kernel_type := ⟨kt1, kt2⟩, shape := ⟨sh1, sh2⟩,
         rmin := ⟨pd1.rmin, pd2.rmin⟩, xmax := ⟨pd1.xmax, pd2.xmax⟩,
         ymax := ⟨pd1.ymax, pd2.ymax⟩, rmax := ⟨pd1.rmax, pd2.rmax⟩,
         rotangle := ⟨pd1.rotangle, pd2.rotangle⟩,
         wtsposxy := ⟨lk1.1, lk2.1⟩, wtsxy := ⟨lk1.2.1, lk2.2.1⟩,
         lkpinfo := ⟨lk1.2.2, lk2.2.2⟩ }

/-- Polarization selector of `compute`: Python `None`, a single string, or
a list of strings. -/
inductive PolArg where
  | noneA
  | single (s : String)
  | list (ls : List String)

/-- Per-polarization outcome of a `compute` call.  `null` is the Python
`None` stored at `aperture.py` line 781 and left in place when no branch
fills the entry; `kernel` is an analytic kernel result; `lookupNN` is
modelled from the spec: it records that the external nearest-neighbor
collaborator (`LKP.lookup_1NN_new`, spec section 4.3, not under `src/`)
was invoked with the given cached table positions, cached values and
search-distance upper limit (`aperture.py` line 811). -/
inductive PolOutcome where
  | null
  | kernel (k : KernOut)
  | lookupNN (positions : Option (List (ℚ × ℚ))) (values : Option (List ℂ))
      (distance_ULIM : ℚ)

/-- Output dictionary of `compute`: a field is `none` when the key was
never stored. -/
structure OutDict where
  p1 : Option PolOutcome := none
  p2 : Option PolOutcome := none

/-- Store an entry of the output dictionary; only called with recognized
labels. -/
def OutDict.set (o : OutDict) (p : String) (v : Option PolOutcome) : OutDict :=
  if p = "P2" then { o with p2 := v } else { o with p1 := v }

/-- Value of the local variable `rmaxNN` inside the `compute` loop: the
Python `None`, a scalar, or (after line 794 rebinds it to `self.rmax`) a
whole per-polarization dictionary. -/
inductive RVal where
  | noneV
  | scalV (q : ℚ)
  | dictV (d : PolDict ℚ)

/-- Loop body of `compute` (`aperture.py` lines 779-813), processing the
selected polarizations in order.  Both `self` (which line 805 may rewrite
when a reload is requested) and the local `rmaxNN` (which line 794
rebinds) persist across iterations and are threaded through. -/
noncomputable def computeLoop (locs : NDArr) (wavelength : WLArg)
    (pointing_center : Option (List ℚ)) (load_lookup : Bool) :
    AntennaAperture → List String → RVal → OutDict → Res OutDict
  | _, [], _, out => pure out
  | self, p :: rest, rmaxNN, out => do
    let out := out.set p (some PolOutcome.null)
    if self.kernel_type.get p = "func" then
      match self.shape.get p with
      | none => computeLoop locs wavelength pointing_center load_lookup self rest rmaxNN out
      | some sh => do
        let k ←
          if sh = "rect" then
            rect locs wavelength (self.xmax.get p) (self.ymax.get p)
              (self.rotangle.get p) pointing_center
          else if sh = "square" then
            square locs wavelength (self.xmax.get p) (self.rotangle.get p)
              pointing_center
          else if sh = "circular" then
            circular locs wavelength (self.rmin.get p) (self.rmax.get p)
              pointing_center
          else
            throw (Err.valueError ("The analytic kernel shape specified in the shape attribute is not currently supported"))
        computeLoop locs wavelength pointing_center load_lookup self rest rmaxNN
          (out.set p (some (PolOutcome.kernel k)))
    else
      let r := match rmaxNN with
        | RVal.noneV => RVal.dictV self.rmax
        | v => v
      match r with
      | RVal.scalV q =>
        if q ≤ 0 then
          throw (Err.valueError ("Search radius upper limit must be positive"))
        else
          match self.lkpinfo.get p with
          | none =>
            computeLoop locs wavelength pointing_center load_lookup self rest
              (RVal.scalV q) out
          | some f =>
            let self :=
              if load_lookup then
                let d := loadWts (read_lookup f)
                { self with
                  wtsposxy :=
                    if p = "P2" then { self.wtsposxy with p2 := some d.1 }
                    else { self.wtsposxy with p1 := some d.1 },
                  wtsxy :=
                    if p = "P2" then { self.wtsxy with p2 := some d.2 }
                    else { self.wtsxy with p1 := some d.2 } }
              else self
            computeLoop locs wavelength pointing_center load_lookup self rest
              (RVal.scalV q)
              (out.set p (some (PolOutcome.lookupNN (self.wtsposxy.get p)
                (self.wtsxy.get p) q)))
      | _ => throw (Err.typeError ("Input rmaxNN must be a scalar"))

/-- Embedding of `AntennaAperture.compute` (`aperture.py` lines 717-814):
normalize the polarization selector (lines 768-777: a single unrecognized
label raises `ValueError`, while a list is deduplicated and filtered down
to the recognized labels), then run the per-polarization loop. -/
noncomputable def AntennaAperture.compute (self : AntennaAperture)
    (locs : NDArr) (wavelength : WLArg) (pointing_center : Option (List ℚ))
    (pol : PolArg) (rmaxNN : Option ℚ) (load_lookup : Bool) : Res OutDict := do
  let pols ← match pol with
    | PolArg.noneA => pure ["P1", "P2"]
    | PolArg.single s =>
      if s ∈ (["P1", "P2"] : List String) then pure [s]
      else throw (Err.valueError ("Invalid value specified for pol"))
    | PolArg.list ls =>
      pure ((ls.filter (fun t => decide (t ∈ (["P1", "P2"] : List String)))).dedup)
  computeLoop locs wavelength pointing_center load_lookup self pols
    (match rmaxNN with | none => RVal.noneV | some q => RVal.scalV q) {}

/-- The `AntennaAperture` produced by an all-default construction
(`AntennaAperture()`): lookup mode on both polarizations, default shape
parameters, no lookup source. -/
def defaultAperture : AntennaAperture :=
  { kernel_type := ⟨"lookup", "lookup"⟩, shape := ⟨none, none⟩,
    rmin := ⟨0, 0⟩, xmax := ⟨1, 1⟩, ymax := ⟨1, 1⟩, rmax := ⟨1, 1⟩,
    rotangle := ⟨0, 0⟩, wtsposxy := ⟨none, none⟩, wtsxy := ⟨none, none⟩,
    lkpinfo := ⟨none, none⟩ }

/-- A concrete parsed lookup file with two samples, used to exercise the
lookup path. -/
def lkpFileA : LkpFile := ⟨[0, 1/10], [0, 0], [1, 2], none⟩

/-- The `AntennaAperture` obtained by supplying `lkpFileA` as the `P1`
lookup source with eager loading disabled (`load_lookup=False`): the
lookup caches stay empty (`None`). -/
def apLkpNoLoad : AntennaAperture :=
  { defaultAperture with lkpinfo := ⟨some lkpFileA, none⟩ }

/-- Record returned by `inputcheck` for a single location `[[0, 0]]` with
unit wavelength and otherwise defaulted parameters: the `rmin` key is
absent and `rmax` is the `parmscheck` default `1.0`. -/
def inpdictNoRmin : InpDict :=
  { locs := ⟨[1, 2], [0, 0]⟩, wavelength := [1], xmax := some 1,
    ymax := some 1, rmin := none, rmax := some 1, rotangle := some 0,
    pointing_center := some (0, 0) }

/-- Record returned by `inputcheck` for an empty locations array of shape
`0 x 2`: the call is accepted and normalizes to zero rows. -/
def inpdictEmpty : InpDict :=
  { locs := ⟨[0, 2], []⟩, wavelength := [1], xmax := some 1,
    ymax := some 1, rmin := none, rmax := some 1, rotangle := some 0,
    pointing_center := some (0, 0) }

/-- Record returned by `inputcheck` for a 2 x 3 locations array: the third
column is truncated and the result has shape 2 x 2. -/
def inpdictTrunc : InpDict :=
  { locs := ⟨[2, 2], [1, 2, 4, 5]⟩, wavelength := [1], xmax := some 1,
    ymax := some 1, rmin := none, rmax := some 1, rotangle := some 0,
    pointing_center := some (0, 0) }

/-- Record returned by `inputcheck` for the single location `[[1/2, 0]]`
with `ymax = 2` and pointing center `[1/2, 0]`. -/
def dC3 : InpDict :=
  { locs := ⟨[1, 2], [1/2, 0]⟩, wavelength := [1], xmax := some 1,
    ymax := some 2, rmin := none, rmax := some 1, rotangle := some 0,
    pointing_center := some (1/2, 0) }

/-- Record returned by `inputcheck` for the two locations
`[[0, 0], [1/5, 0]]` with default shape parameters. -/
def dC8 : InpDict :=
  { locs := ⟨[2, 2], [0, 0, 1/5, 0]⟩, wavelength := [1], xmax := some 1,
    ymax := some 1, rmin := none, rmax := some 1, rotangle := some 0,
    pointing_center := some (0, 0) }

/-- Record returned by `inputcheck` for the same two locations with the
per-location wavelength array `[1, 1]`. -/
def dC8arr : InpDict := { dC8 with wavelength := [1, 1] }

/-- Spec-side failure condition of the shape-parameter validator, written
from the claim: `xmax ≤ 0`, or `ymax ≤ 0`, or `rmin ≥ rmax` after a
negative `rmin` has been clamped to `0`, or a supplied pointing center
with other than 2 elements or squared norm exceeding 1. -/
def parmsValueBad (xmax ymax rmin rmax : ℚ) (pc : Option (List ℚ)) : Prop :=
  xmax ≤ 0 ∨ ymax ≤ 0 ∨ max rmin 0 ≥ rmax ∨
    (∃ l, pc = some l ∧ (l.length ≠ 2 ∨ 1 < (l.map (fun q => q ^ 2)).sum))

end EPIC

namespace EPIC

/-! ### Helper lemmas about the `Except`-based computation model -/

@[simp] theorem res_throw_eq {α : Type} (e : Err) :
    (throw e : Res α) = Except.error e := rfl

@[simp] theorem res_bind_error {α β : Type} (e : Err) (f : α → Res β) :
    (Except.error e : Res α) >>= f = Except.error e := rfl

@[simp] theorem res_bind_ok {α β : Type} (a : α) (f : α → Res β) :
    (Except.ok a : Res α) >>= f = f a := rfl

@[simp] theorem res_map_error {α β : Type} (g : α → β) (e : Err) :
    g <$> (Except.error e : Res α) = Except.error e := rfl

@[simp] theorem res_map_ok {α β : Type} (g : α → β) (a : α) :
    g <$> (Except.ok a : Res α) = Except.ok (g a) := rfl

@[simp] theorem res_pure_eq {α : Type} (a : α) :
    (pure a : Res α) = Except.ok a := rfl

theorem res_bind_ok_iff {α β : Type} (x : Res α) (f : α → Res β) (b : β) :
    x >>= f = Except.ok b ↔ ∃ a, x = Except.ok a ∧ f a = Except.ok b := by
  cases x <;> simp

/-! ### Lemmas about the locations-normalization pipeline -/

/-- Squeezing preserves the total number of elements: dropping extent-1
axes does not change the shape product. -/
theorem filter_ne_one_prod : ∀ l : List ℕ,
    (l.filter (fun d => decide (d ≠ 1))).prod = l.prod := by
  intro l
  induction l with
  | nil => rfl
  | cons x xs ih =>
    rw [List.filter_cons]
    by_cases hx : x = 1
    · rw [if_neg (by simp [hx]), ih, List.prod_cons, hx, one_mul]
    · rw [if_pos (by simp [hx]), List.prod_cons, List.prod_cons, ih]

/-- A list of length `m * n` splits into exactly `m` chunks of length
`n`. -/
theorem chunkRows_spec {α : Type} (n : ℕ) (hn : 0 < n) :
    ∀ (m : ℕ) (l : List α), l.length = m * n →
      (chunkRows n l).length = m ∧ ∀ r ∈ chunkRows n l, r.length = n := by
  intro m
  induction m with
  | zero =>
    intro l hl
    have : l = [] := List.length_eq_zero.mp (by simpa using hl)
    subst this
    simp [chunkRows]
  | succ k ih =>
    intro l hl
    obtain ⟨x, xs, rfl⟩ : ∃ x xs, l = x :: xs := by
      cases l with
      | nil =>
        exfalso
        have hpos : 0 < (k + 1) * n := Nat.mul_pos (Nat.succ_pos k) hn
        simp at hl
        omega
      | cons x xs => exact ⟨x, xs, rfl⟩
    rw [chunkRows, dif_neg (Nat.pos_iff_ne_zero.mp hn)]
    have hdrop : ((x :: xs).drop n).length = k * n := by
      rw [List.length_drop, hl, Nat.succ_mul]
      omega
    obtain ⟨ihlen, ihall⟩ := ih _ hdrop
    refine ⟨by simp [ihlen], ?_⟩
    intro r hr
    rcases List.mem_cons.mp hr with rfl | hr2
    · rw [List.length_take, hl, Nat.succ_mul]
      omega
    · exact ihall r hr2

/-- Shape bookkeeping for the common tail of the 2-dimensional (and
post-`sel3`) branch: optional column truncation followed by
`reshape(-1, 2)`. -/
theorem reshape_dim2_case (m n : ℕ) (data : List ℚ)
    (hlen : data.length = m * n) (hn1 : n ≠ 1) (L : NDArr)
    (hr : reshapeM2 (if 2 < n then truncCols ⟨[m, n], data⟩
        else ⟨[m, n], data⟩) = Except.ok L) :
    ∃ M, L.shape = [M, 2] ∧ L.data.length = 2 * M ∧ (M = 0 ↔ m = 0 ∨ n = 0) := by
  by_cases h2 : 2 < n
  · rw [if_pos h2] at hr
    have hn0 : 0 < n := by omega
    obtain ⟨hcnt, hall⟩ := chunkRows_spec n hn0 m data hlen
    have hflat :
        (((chunkRows n data).map (fun r => r.take 2)).flatten).length = 2 * m := by
      rw [List.length_flatten]
      have hrep : ((chunkRows n data).map (fun r => r.take 2)).map List.length
          = List.replicate m 2 := by
        rw [List.eq_replicate_iff]
        constructor
        · simp [hcnt]
        · intro b hb
          simp only [List.map_map, List.mem_map] at hb
          obtain ⟨r, hrmem, rfl⟩ := hb
          simp only [Function.comp_apply, List.length_take, hall r hrmem]
          omega
      rw [hrep, List.sum_replicate, smul_eq_mul]
      omega
    have htc : truncCols ⟨[m, n], data⟩
        = ⟨[m, 2], ((chunkRows n data).map (fun r => r.take 2)).flatten⟩ := rfl
    rw [htc] at hr
    simp only [reshapeM2, NDArr.size] at hr
    have hprod : ([m, 2] : List ℕ).prod = m * 2 := by simp
    rw [hprod] at hr
    rw [if_pos (by omega : m * 2 % 2 = 0)] at hr
    simp only [res_pure_eq, Except.ok.injEq] at hr
    subst hr
    refine ⟨m, ?_, ?_, by omega⟩
    · simp only [List.cons.injEq, and_true]
      omega
    · exact hflat
  · rw [if_neg h2] at hr
    simp only [reshapeM2, NDArr.size] at hr
    have hn02 : n = 0 ∨ n = 2 := by omega
    rcases hn02 with rfl | rfl
    · have hprod : ([m, 0] : List ℕ).prod = 0 := by simp
      rw [hprod] at hr
      rw [if_pos (by omega : (0 : ℕ) % 2 = 0)] at hr
      simp only [res_pure_eq, Except.ok.injEq] at hr
      subst hr
      refine ⟨0, by simp, ?_, by simp⟩
      simpa using hlen
    · have hprod : ([m, 2] : List ℕ).prod = m * 2 := by simp
      rw [hprod] at hr
      rw [if_pos (by omega : m * 2 % 2 = 0)] at hr
      simp only [res_pure_eq, Except.ok.injEq] at hr
      subst hr
      refine ⟨m, ?_, ?_, by simp⟩
      · simp only [List.cons.injEq, and_true]
        omega
      · rw [hlen]
        omega

/-- Main shape invariant of the locations normalization: an accepted input
normalizes to an `M x 2` array whose flat data has `2 * M` entries, and
`M ≥ 1` exactly when the input held at least one element. -/
theorem normalizeLocs_shape (a : NDArr) (h : a.wf) (L : NDArr)
    (hok : normalizeLocs a = Except.ok L) :
    ∃ M, L.shape = [M, 2] ∧ L.data.length = 2 * M ∧ (1 ≤ M ↔ a.data ≠ []) := by
  simp only [normalizeLocs] at hok
  obtain ⟨b, hb, hr⟩ := (res_bind_ok_iff _ _ _).mp hok
  have hdata : a.data.length = (a.shape.filter (fun d => decide (d ≠ 1))).prod := by
    rw [filter_ne_one_prod]
    exact h
  have hmem : ∀ d ∈ a.shape.filter (fun d => decide (d ≠ 1)), d ≠ 1 := by
    intro d hd
    simpa using (List.mem_filter.mp hd).2
  simp only [normLocsBranch, NDArr.squeeze, NDArr.ndim, NDArr.size] at hb
  rcases hsh : a.shape.filter (fun d => decide (d ≠ 1)) with _ | ⟨d0, tl0⟩
  · rw [hsh] at hb
    simp at hb
  · rcases tl0 with _ | ⟨d1, tl1⟩
    · -- 1-dimensional after squeeze
      rw [hsh] at hb hdata
      simp at hb
      simp only [List.prod_cons, List.prod_nil, mul_one] at hdata
      split_ifs at hb with hcond
      injection hb with hb
      subst hb
      simp only [reshapeM2, NDArr.size] at hr
      rw [if_pos (by simp)] at hr
      simp only [res_pure_eq, Except.ok.injEq] at hr
      subst hr
      refine ⟨1, by simp, ?_, ?_⟩
      · simp only [List.length_take]
        omega
      · have : a.data ≠ [] := by
          intro hnil
          rw [hnil] at hdata
          simp at hdata
          omega
        simp [this]
    · rcases tl1 with _ | ⟨d2, tl2⟩
      · -- 2-dimensional after squeeze
        rw [hsh] at hb hdata
        simp at hb
        have hlen : a.data.length = d0 * d1 := by
          rw [hdata]
          simp
        have hd1 : d1 ≠ 1 := hmem d1 (by rw [hsh]; simp)
        subst hb
        obtain ⟨M, h1, h2, h3⟩ := reshape_dim2_case d0 d1 a.data hlen hd1 L
          (by simpa using hr)
        refine ⟨M, h1, h2, ?_⟩
        have hnil : a.data = [] ↔ d0 = 0 ∨ d1 = 0 := by
          rw [← List.length_eq_zero, hlen, Nat.mul_eq_zero]
        rw [ne_eq, hnil]
        omega
      · rcases tl2 with _ | ⟨d3, tl3⟩
        · -- 3-dimensional after squeeze
          rw [hsh] at hb hdata
          simp at hb
          obtain ⟨locs2, hsel, hb2⟩ := (res_bind_ok_iff _ _ _).mp hb
          simp only [sel3] at hsel
          split_ifs at hsel with hc0
          simp only [res_pure_eq] at hsel
          injection hsel with hsel
          subst hsel
          have hlen3 : a.data.length = (d0 * d1) * d2 := by
            rw [hdata]
            simp
            ring
          obtain ⟨hcnt, _⟩ := chunkRows_spec d2 (by omega) (d0 * d1) a.data hlen3
          have hheads : ((chunkRows d2 a.data).map (fun r => r.headD 0)).length
              = d0 * d1 := by
            simp [hcnt]
          have hd1 : d1 ≠ 1 := hmem d1 (by rw [hsh]; simp)
          simp only [res_pure_eq, Except.ok.injEq] at hb2
          subst hb2
          obtain ⟨M, h1, h2, h3⟩ := reshape_dim2_case d0 d1
            ((chunkRows d2 a.data).map (fun r => r.headD 0)) hheads hd1 L
            (by simpa using hr)
          refine ⟨M, h1, h2, ?_⟩
          have hnil : a.data = [] ↔ d0 = 0 ∨ d1 = 0 := by
            rw [← List.length_eq_zero, hlen3]
            constructor
            · intro h0
              rcases Nat.mul_eq_zero.mp h0 with h01 | h02
              · exact Nat.mul_eq_zero.mp h01
              · exact absurd h02 hc0
            · intro h0
              rcases h0 with h0 | h0 <;> simp [h0]
          rw [ne_eq, hnil]
          omega
        · -- more than 3 dimensions after squeeze
          rw [hsh] at hb
          rw [if_pos (Or.inr (by simp only [List.length_cons]; omega))] at hb
          simp at hb

/-- The locations entry of a successful `inputcheck` record is exactly the
normalized locations array. -/
theorem inputcheck_locs_norm (locs : NDArr) (wl : WLArg)
    (x y rn rx ra : ℚ) (pc : Option (List ℚ)) (d : InpDict)
    (hok : inputcheck locs wl x y rn rx ra pc = Except.ok d) :
    normalizeLocs locs = Except.ok d.locs := by
  simp only [inputcheck] at hok
  obtain ⟨locsB, hB, hok⟩ := (res_bind_ok_iff _ _ _).mp hok
  obtain ⟨locsN, hN, hok⟩ := (res_bind_ok_iff _ _ _).mp hok
  split_ifs at hok <;> try simp at hok
  obtain ⟨p, hp, hok⟩ := (res_bind_ok_iff _ _ _).mp hok
  simp only [res_pure_eq, Except.ok.injEq] at hok
  subst hok
  simp [normalizeLocs, hB, hN]

/-! ### Lemmas about masking, scattering and the rectangular kernel core -/

@[simp] theorem maskSelect_nil_mask {α : Type} (a : List α) :
    maskSelect a [] = [] := by
  cases a <;> rfl

@[simp] theorem maskSelect_cons {α : Type} (x : α) (xs : List α) (b : Bool)
    (bs : List Bool) :
    maskSelect (x :: xs) (b :: bs)
      = if b then x :: maskSelect xs bs else maskSelect xs bs := rfl

@[simp] theorem scatter_nil (vals : List ℂ) : scatter [] vals = [] := rfl

@[simp] theorem scatter_cons (b : Bool) (bs : List Bool) (vals : List ℂ) :
    scatter (b :: bs) vals
      = if b then vals.headD 0 :: scatter bs vals.tail
        else 0 :: scatter bs vals := rfl

@[simp] theorem boolIndex_nil_mask {α : Type} (a : List α) :
    boolIndex a [] = pure [] := by
  cases a <;> rfl

/-- On a mask of the same length as the array, vintage boolean indexing
never fails and agrees with plain mask selection. -/
theorem boolIndex_eq_maskSelect {α : Type} :
    ∀ (a : List α) (mask : List Bool), mask.length = a.length →
      boolIndex a mask = Except.ok (maskSelect a mask) := by
  intro a
  induction a with
  | nil =>
    intro mask hlen
    have : mask = [] := List.length_eq_zero.mp (by simpa using hlen)
    subst this
    rfl
  | cons x xs ih =>
    intro mask hlen
    rcases mask with _ | ⟨b, bs⟩
    · simp at hlen
    · have hlen' : bs.length = xs.length := by simpa using hlen
      show (do
        let rest ← boolIndex xs bs
        pure (if b then x :: rest else rest)) = _
      rw [ih bs hlen']
      simp

/-- Entry characterization of the scatter of zipped phase values over a
mask computed pointwise from the (rotated) locations: position `i` holds
the phase value of location `i` when the mask is set there, and `0`
otherwise. -/
theorem scatter_zip_getD (g : ℚ → ℝ × ℝ → ℂ) (P : ℝ × ℝ → Bool) :
    ∀ (xs : List (ℝ × ℝ)) (ws : List ℚ) (i : ℕ), ws.length = xs.length →
      i < xs.length →
      (scatter (xs.map P)
        (List.zipWith g (maskSelect ws (xs.map P))
          (maskSelect xs (xs.map P)))).getD i 0
        = if P (xs.getD i (0, 0)) then g (ws.getD i 0) (xs.getD i (0, 0))
          else 0 := by
  intro xs
  induction xs with
  | nil =>
    intro ws i hlen hi
    simp at hi
  | cons x xs ih =>
    intro ws i hlen hi
    rcases ws with _ | ⟨w, ws⟩
    · simp at hlen
    · have hlen' : ws.length = xs.length := by simpa using hlen
      by_cases hx : P x
      · simp only [List.map_cons, maskSelect_cons, hx, if_true, scatter_cons,
          List.zipWith_cons_cons]
        rcases i with _ | i
        · simp [hx]
        · simp only [List.headD_cons, List.tail_cons, List.getD_cons_succ]
          exact ih ws i hlen' (by simpa using hi)
      · simp only [List.map_cons, maskSelect_cons, hx, if_false, scatter_cons,
          Bool.false_eq_true]
        rcases i with _ | i
        · simp [hx]
        · simp only [List.getD_cons_succ]
          exact ih ws i hlen' (by simpa using hi)

/-- The `rmin` key is never present in a successful `inputcheck` record. -/
theorem inputcheck_rmin_none (locs : NDArr) (wl : WLArg)
    (x y rn rx ra : ℚ) (pc : Option (List ℚ)) (d : InpDict)
    (hok : inputcheck locs wl x y rn rx ra pc = Except.ok d) :
    d.rmin = none := by
  simp only [inputcheck] at hok
  obtain ⟨locsB, hB, hok⟩ := (res_bind_ok_iff _ _ _).mp hok
  obtain ⟨locsN, hN, hok⟩ := (res_bind_ok_iff _ _ _).mp hok
  split_ifs at hok <;> try simp at hok
  obtain ⟨p, hp, hok⟩ := (res_bind_ok_iff _ _ _).mp hok
  simp only [res_pure_eq, Except.ok.injEq] at hok
  subst hok
  rfl

/-- Every call of the circular kernel fails: the `rmin` dictionary read of
`aperture.py` line 442 raises `KeyError` because `inputcheck` never stores
that key. -/
theorem circular_never_ok (locsND : NDArr) (wla : WLArg) (rn rx : ℚ)
    (pc : Option (List ℚ)) (k : KernOut) :
    circular locsND wla rn rx pc ≠ Except.ok k := by
  intro h
  simp only [circular] at h
  obtain ⟨d, hd, h⟩ := (res_bind_ok_iff _ _ _).mp h
  rw [inputcheck_rmin_none locsND wla 1 1 rn rx 0 pc d hd] at h
  simp [getKey] at h

/-! ### Claim theorems -/

/-- C3 amended: for the rectangular and square analytic kernels, with one
wavelength per location, every kernel entry at a location inside the
(rotated) footprint equals the unit-magnitude phase factor evaluated at
that location's own wavelength and at the location as rotated into the
aperture frame (not the raw input location); and the circular kernel never
produces entries at all - every call fails on the missing `rmin` key. -/
theorem rect_c3_inside_phase :
    (∀ (locs : List (ℚ × ℚ)) (wl : List ℚ) (xmax ymax rotangle : ℚ)
      (pc : ℚ × ℚ) (kern : List ℂ), wl.length = locs.length →
      rectCore locs wl xmax ymax rotangle pc = Except.ok kern →
      ∀ i, i < locs.length →
      inRect xmax ymax (invRotate (rectRotangle xmax ymax rotangle)
        (locs.getD i (0, 0))) →
      kern.getD i 0 = phaseFactor (wl.getD i 0)
        (invRotate (rectRotangle xmax ymax rotangle) (locs.getD i (0, 0))) pc) ∧
    (∀ (locsND : NDArr) (wla : WLArg) (rn rx : ℚ) (pc : Option (List ℚ))
      (k : KernOut), circular locsND wla rn rx pc ≠ Except.ok k) := by
  constructor
  · intro locs wl xmax ymax rotangle pc kern hlen hok i hi hin
    classical
    simp only [rectCore] at hok
    rw [boolIndex_eq_maskSelect _ _ (by simp [hlen])] at hok
    simp only [res_bind_ok, res_pure_eq, Except.ok.injEq] at hok
    subst hok
    have hsc := scatter_zip_getD (fun w p => phaseFactor w p pc)
      (fun p => if inRect xmax ymax p then true else false)
      (locs.map (invRotate (rectRotangle xmax ymax rotangle))) wl i
      (by simp [hlen]) (by simpa using hi)
    have hgd : (locs.map (invRotate (rectRotangle xmax ymax rotangle))).getD i
        ((0 : ℝ), (0 : ℝ))
        = invRotate (rectRotangle xmax ymax rotangle) (locs.getD i (0, 0)) := by
      rw [List.getD_eq_getElem _ _ (by simpa using hi),
        List.getD_eq_getElem _ _ hi, List.getElem_map]
    rw [hsc, hgd]
    have hc : (fun p => if inRect xmax ymax p then true else false)
        (invRotate (rectRotangle xmax ymax rotangle) (locs.getD i (0, 0)))
        = true := by
      show (if inRect xmax ymax (invRotate (rectRotangle xmax ymax rotangle)
        (locs.getD i (0, 0))) then true else false) = true
      exact if_pos hin
    rw [if_pos hc]
  · exact circular_never_ok


/-- C1: the spec scenario `circular(locs=[[0,0],[2,0]], wavelength=1.0,
rmin=0.0, rmax=1.0, pointing_center=[0,0])` is claimed to return
`[1.0, 0.0]`.  The code instead raises `KeyError('rmin')`: `inputcheck`
never stores an `rmin` key, so `circular` fails at the dictionary read of
`aperture.py` line 442 on every call, including this one. -/
theorem circular_c1_keyerror :
    circular ⟨[2, 2], [0, 0, 2, 0]⟩ (WLArg.scal 1) 0 1 (some [0, 0])
      = Except.error (Err.keyError ("rmin")) := by
  norm_num [circular, inputcheck, normLocsBranch, reshapeM2, parmscheck,
    getKey, NDArr.squeeze, NDArr.ndim, NDArr.size]

/-- C2: `inputcheck` is claimed to validate the caller's `rmin` and `rmax`
through `parmscheck` (so `rmin = 7 ≥ rmax = 5` should raise `ValueError`)
and to return a record carrying the caller's clamped `rmin` and `rmax`.
Instead the call succeeds, the returned record has no `rmin` key at all,
and its `rmax` entry is the `parmscheck` default `1.0`, because
`aperture.py` line 254 does not forward `rmin`/`rmax`. -/
theorem inputcheck_c2_ignores_rmin_rmax :
    inputcheck ⟨[1, 2], [0, 0]⟩ (WLArg.scal 1) 1 1 7 5 0 none
        = Except.ok inpdictNoRmin ∧
      inpdictNoRmin.rmin = none ∧ inpdictNoRmin.rmax = some 1 := by
  refine ⟨?_, rfl, rfl⟩
  norm_num [inputcheck, normLocsBranch, reshapeM2, parmscheck,
    NDArr.squeeze, NDArr.ndim, NDArr.size, inpdictNoRmin]

/-- C4: the claim says the circular analytic kernel assigns a zero value
exactly to locations strictly outside the annulus, with the boundary point
`(1, 0)` (at radius `rmax = 1`) included and hence nonzero.  The code
assigns no value at all: every `circular` call raises `KeyError('rmin')`
before the membership test is ever reached. -/
theorem circular_c4_boundary_keyerror :
    circular ⟨[1, 2], [1, 0]⟩ (WLArg.scal 1) 0 1 none
      = Except.error (Err.keyError ("rmin")) := by
  norm_num [circular, inputcheck, normLocsBranch, reshapeM2, parmscheck,
    getKey, NDArr.squeeze, NDArr.ndim, NDArr.size]

/-- C7: on a lookup-mode polarization with `rmaxNN` left unset, the claim
says the search radius is resolved from the configured `rmax` and the
nearest-neighbor match proceeds.  Instead `aperture.py` line 794 rebinds
`rmaxNN` to the whole per-polarization `self.rmax` dictionary, and the
scalar check at line 795 then raises `TypeError` on every defaulted
lookup-mode call. -/
theorem compute_c7_default_rmaxNN_typeerror :
    AntennaAperture.init none none none none true = Except.ok defaultAperture ∧
      AntennaAperture.compute defaultAperture ⟨[1, 2], [0, 0]⟩ (WLArg.scal 1)
          none (PolArg.single ("P1")) none false
        = Except.error (Err.typeError ("Input rmaxNN must be a scalar")) := by
  constructor
  · norm_num [AntennaAperture.init, parmscheck, fillParms, defaultAperture]
  · simp [AntennaAperture.compute, computeLoop, defaultAperture,
      OutDict.set, PolDict.get]

/-- C10: constructing an aperture with a `P1` lookup source but eager
loading disabled leaves the caches empty, and a later `compute` for `P1`
(with an explicit scalar search radius) does not detect this: it invokes
the external nearest-neighbor collaborator with a null positions table and
null values, rather than returning a null entry or raising a validation
error. -/
theorem compute_c10_lookup_null_cache :
    AntennaAperture.init none none none (some ⟨some lkpFileA, none⟩) false
        = Except.ok apLkpNoLoad ∧
      AntennaAperture.compute apLkpNoLoad ⟨[1, 2], [0, 0]⟩ (WLArg.scal 1)
          none (PolArg.single ("P1")) (some 1) false
        = Except.ok { p1 := some (PolOutcome.lookupNN none none 1), p2 := none } := by
  constructor
  · norm_num [AntennaAperture.init, parmscheck, fillParms, apLkpNoLoad,
      defaultAperture, lkpEntry]
  · simp [AntennaAperture.compute, computeLoop, apLkpNoLoad,
      defaultAperture, lkpFileA, OutDict.set, PolDict.get]

/-- C6 counterexample: the claim says unrecognized polarization labels
never raise, whether given as a single label or in a list.  A single
unrecognized label `"XX"` raises `ValueError` (`aperture.py` lines
770-772). -/
theorem compute_c6_single_label_counterexample :
    AntennaAperture.compute defaultAperture ⟨[1, 2], [0, 0]⟩ (WLArg.scal 1)
        none (PolArg.single ("XX")) (some 1) false
      = Except.error (Err.valueError ("Invalid value specified for pol")) := by
  simp [AntennaAperture.compute]

/-- C9 counterexample: the empty locations array of shape `0 x 2` is
accepted by `inputcheck` and normalizes to a `0 x 2` array, so the claimed
invariant `M >= 1` fails on an accepted input. -/
theorem inputcheck_c9_empty_counterexample :
    inputcheck ⟨[0, 2], []⟩ (WLArg.scal 1) 1 1 0 1 0 none
        = Except.ok inpdictEmpty ∧
      inpdictEmpty.locs.shape = [0, 2] ∧
      ¬ ∃ M, inpdictEmpty.locs.shape = [M, 2] ∧ 1 ≤ M := by
  refine ⟨?_, rfl, ?_⟩
  · norm_num [inputcheck, normLocsBranch, reshapeM2, parmscheck,
      NDArr.squeeze, NDArr.ndim, NDArr.size, inpdictEmpty]
  · rintro ⟨M, hM, h1⟩
    simp [inpdictEmpty] at hM
    omega

/-- C9 amended: every locations input accepted by `inputcheck` (under the
well-formedness of the numpy array model) normalizes to an array of shape
exactly `M x 2` whose flat data has `2 * M` entries (extra columns
truncated), and `M ≥ 1` holds exactly when the input array is nonempty. -/
theorem inputcheck_c9_locs_shape (a : NDArr) (wl : WLArg)
    (x y rn rx ra : ℚ) (pc : Option (List ℚ)) (h : a.wf) (d : InpDict)
    (hok : inputcheck a wl x y rn rx ra pc = Except.ok d) :
    ∃ M, d.locs.shape = [M, 2] ∧ d.locs.data.length = 2 * M ∧
      (1 ≤ M ↔ a.data ≠ []) :=
  normalizeLocs_shape a h d.locs (inputcheck_locs_norm a wl x y rn rx ra pc d hok)

/-- C9 witness: `inputcheck_c9_locs_shape` at the concrete 2 x 3 input
`[[1,2,3],[4,5,6]]`, which normalizes to the 2 x 2 array `[[1,2],[4,5]]`. -/
theorem inputcheck_c9_witness :
    ∃ M, inpdictTrunc.locs.shape = [M, 2] ∧
      inpdictTrunc.locs.data.length = 2 * M ∧
      (1 ≤ M ↔ (⟨[2, 3], [1, 2, 3, 4, 5, 6]⟩ : NDArr).data ≠ []) :=
  inputcheck_c9_locs_shape ⟨[2, 3], [1, 2, 3, 4, 5, 6]⟩ (WLArg.scal 1)
    1 1 0 1 0 none (by simp [NDArr.wf]) inpdictTrunc
    (by norm_num [inputcheck, normLocsBranch, reshapeM2, parmscheck, truncCols,
      chunkRows, NDArr.squeeze, NDArr.ndim, NDArr.size, inpdictTrunc])

/-- C5: given numeric scalar inputs and an (optional) array-like pointing
center, `parmscheck` raises a `ValueError` exactly when `xmax ≤ 0`, or
`ymax ≤ 0`, or the clamped `rmin` is at least `rmax`, or the pointing
center has other than 2 elements or squared norm above 1; it succeeds
exactly otherwise (so a pointing center of squared norm exactly 1 is
accepted), and an unset pointing center defaults to `(0, 0)`. -/
theorem parmscheck_c5_valueerror_iff (xmax ymax rmin rmax rotangle : ℚ)
    (pc : Option (List ℚ)) :
    ((∃ msg, parmscheck xmax ymax rmin rmax rotangle pc
        = Except.error (Err.valueError msg)) ↔
      parmsValueBad xmax ymax rmin rmax pc) ∧
    ((∃ d, parmscheck xmax ymax rmin rmax rotangle pc = Except.ok d) ↔
      ¬ parmsValueBad xmax ymax rmin rmax pc) ∧
    (∀ d, parmscheck xmax ymax rmin rmax rotangle none = Except.ok d →
      d.pointing_center = (0, 0)) := by
  have hclamp : (if rmin < 0 then 0 else rmin) = max rmin 0 := by
    rcases lt_or_le rmin 0 with h | h
    · simp [h, max_eq_right h.le]
    · simp [h.not_lt, max_eq_left h]
  have main : (parmsValueBad xmax ymax rmin rmax pc ∧
      ∃ msg, parmscheck xmax ymax rmin rmax rotangle pc
        = Except.error (Err.valueError msg)) ∨
      (¬ parmsValueBad xmax ymax rmin rmax pc ∧
      ∃ d, parmscheck xmax ymax rmin rmax rotangle pc = Except.ok d) := by
    by_cases h1 : xmax ≤ 0
    · exact Or.inl ⟨Or.inl h1, "xmax must be positive", by simp [parmscheck, h1]⟩
    by_cases h2 : ymax ≤ 0
    · exact Or.inl ⟨Or.inr (Or.inl h2), "ymax must be positive",
        by simp [parmscheck, h1, h2]⟩
    by_cases h3 : rmax ≤ max rmin 0
    · exact Or.inl ⟨Or.inr (Or.inr (Or.inl h3)), "rmin must be less than rmax",
        by simp [parmscheck, hclamp, h1, h2, h3]⟩
    rcases pc with _ | l
    · refine Or.inr ⟨?_, by simp [parmscheck, hclamp, h1, h2, h3]⟩
      simp [parmsValueBad, h1, h2, h3]
    · rcases l with _ | ⟨a, t⟩
      · refine Or.inl ⟨Or.inr (Or.inr (Or.inr ⟨[], rfl, Or.inl (by simp)⟩)),
          "pointing center must be a 2-element numpy array",
          by simp [parmscheck, hclamp, h1, h2, h3]⟩
      · rcases t with _ | ⟨b, t2⟩
        · refine Or.inl ⟨Or.inr (Or.inr (Or.inr ⟨[a], rfl, Or.inl (by simp)⟩)),
            "pointing center must be a 2-element numpy array",
            by simp [parmscheck, hclamp, h1, h2, h3]⟩
        · rcases t2 with _ | ⟨c, t3⟩
          · by_cases h4 : 1 < a ^ 2 + b ^ 2
            · refine Or.inl ⟨Or.inr (Or.inr (Or.inr ⟨[a, b], rfl, Or.inr ?_⟩)),
                "pointing center incompatible with rules of direction cosines",
                by simp [parmscheck, hclamp, h1, h2, h3, h4]⟩
              simpa using h4
            · refine Or.inr ⟨?_, by simp [parmscheck, hclamp, h1, h2, h3, h4]⟩
              simp only [parmsValueBad]
              push_neg
              refine ⟨lt_of_not_le h1, lt_of_not_le h2, lt_of_not_le h3, ?_⟩
              rintro l hl
              cases hl
              constructor
              · simp
              · simpa using h4
          · refine Or.inl ⟨Or.inr (Or.inr (Or.inr
              ⟨a :: b :: c :: t3, rfl, Or.inl (by simp)⟩)),
              "pointing center must be a 2-element numpy array",
              by simp [parmscheck, hclamp, h1, h2, h3]⟩
  refine ⟨⟨?_, ?_⟩, ⟨?_, ?_⟩, ?_⟩
  · rintro ⟨msg, hmsg⟩
    rcases main with ⟨hbad, _⟩ | ⟨_, d, hd⟩
    · exact hbad
    · rw [hmsg] at hd; cases hd
  · intro hbad
    rcases main with ⟨_, hm⟩ | ⟨hgood, _⟩
    · exact hm
    · exact absurd hbad hgood
  · rintro ⟨d, hd⟩
    rcases main with ⟨hbad, msg, hm⟩ | ⟨hgood, _⟩
    · rw [hm] at hd; cases hd
    · exact fun h => hgood h
  · intro hgood
    rcases main with ⟨hbad, _⟩ | ⟨_, hm⟩
    · exact absurd hbad hgood
    · exact hm
  · intro d hd
    simp only [parmscheck] at hd
    split_ifs at hd <;> simp at hd <;> simp [← hd]

/-- C5 witness: a concrete instance of `parmscheck_c5_valueerror_iff`.  The
inputs `xmax = 2`, `ymax = 3`, `rmin = -1` (clamped to `0`), `rmax = 1`
and pointing center `[1, 0]` (squared norm exactly 1) are accepted, and an
unset pointing center yields `(0, 0)`. -/
theorem parmscheck_c5_witness :
    (∃ d, parmscheck 2 3 (-1) 1 0 (some [1, 0]) = Except.ok d) ∧
      ParmsDict.pointing_center ⟨2, 3, 0, 1, 0, (0, 0)⟩ = (0, 0) := by
  constructor
  · refine ((parmscheck_c5_valueerror_iff 2 3 (-1) 1 0 (some [1, 0])).2.1).mpr ?_
    simp only [parmsValueBad]
    push_neg
    refine ⟨by norm_num, by norm_num, by norm_num, ?_⟩
    rintro l hl
    cases hl
    exact ⟨by norm_num, by norm_num⟩
  · exact (parmscheck_c5_valueerror_iff 2 3 (-1) 1 0 none).2.2
      ⟨2, 3, 0, 1, 0, (0, 0)⟩ (by norm_num [parmscheck])

/-- C6 amended: a polarization selector given as a list has its
unrecognized labels silently dropped (the call is identical to the call on
the recognized sublist), but a single unrecognized label as selector
raises `ValueError` instead of being dropped. -/
theorem compute_c6_list_drop_single_raises (self : AntennaAperture)
    (locs : NDArr) (wl : WLArg) (pc : Option (List ℚ)) (rm : Option ℚ)
    (ll : Bool) (ls : List String) (s : String)
    (hs : s ∉ (["P1", "P2"] : List String)) :
    AntennaAperture.compute self locs wl pc (PolArg.single s) rm ll
        = Except.error (Err.valueError ("Invalid value specified for pol")) ∧
      AntennaAperture.compute self locs wl pc (PolArg.list ls) rm ll
        = AntennaAperture.compute self locs wl pc
            (PolArg.list (ls.filter (fun t =>
              decide (t ∈ (["P1", "P2"] : List String))))) rm ll := by
  constructor
  · simp [AntennaAperture.compute, hs]
  · have hff : (ls.filter (fun t =>
          decide (t ∈ (["P1", "P2"] : List String)))).filter
            (fun t => decide (t ∈ (["P1", "P2"] : List String)))
        = ls.filter (fun t => decide (t ∈ (["P1", "P2"] : List String))) := by
      simp [List.filter_filter]
    simp only [AntennaAperture.compute, hff]

/-- C6 witness: `compute_c6_list_drop_single_raises` at the unrecognized
label `"P3"` and the list `["P3", "P1"]` on a default aperture. -/
theorem compute_c6_witness :
    AntennaAperture.compute defaultAperture ⟨[1, 2], [0, 0]⟩ (WLArg.scal 1)
        none (PolArg.single ("P3")) (some 1) false
        = Except.error (Err.valueError ("Invalid value specified for pol")) ∧
      AntennaAperture.compute defaultAperture ⟨[1, 2], [0, 0]⟩ (WLArg.scal 1)
          none (PolArg.list ["P3", "P1"]) (some 1) false
        = AntennaAperture.compute defaultAperture ⟨[1, 2], [0, 0]⟩ (WLArg.scal 1)
            none (PolArg.list (["P3", "P1"].filter (fun t =>
              decide (t ∈ (["P1", "P2"] : List String))))) (some 1) false :=
  compute_c6_list_drop_single_raises defaultAperture ⟨[1, 2], [0, 0]⟩
    (WLArg.scal 1) none (some 1) false ["P3", "P1"] ("P3") (by simp)

/-! ### Concrete kernel evaluations used by the C3 and C8 theorems -/

@[simp] theorem getKey_some {α : Type} (k : String) (v : α) :
    getKey k (some v) = pure v := rfl

@[simp] theorem getKey_none {α : Type} (k : String) :
    getKey k (none : Option α) = Except.error (Err.keyError k) := rfl

theorem inputcheck_evalC3 :
    inputcheck ⟨[1, 2], [1/2, 0]⟩ (WLArg.scal 1) 1 2 0 1 0 (some [1/2, 0])
      = Except.ok dC3 := by
  norm_num [inputcheck, normLocsBranch, reshapeM2, parmscheck,
    NDArr.squeeze, NDArr.ndim, NDArr.size, dC3]

theorem toPairs_evalC3 : toPairs (⟨[1, 2], [1/2, 0]⟩ : NDArr)
    = [((1/2 : ℚ), (0 : ℚ))] := by
  norm_num [toPairs, chunkRows]

theorem rectCore_evalC3 :
    rectCore [((1/2 : ℚ), (0 : ℚ))] [1] 1 2 0 (1/2, 0) = Except.ok [1] := by
  classical
  have hrot : invRotate (rectRotangle 1 2 0) ((1/2 : ℚ), (0 : ℚ))
      = ((0 : ℝ), (-(1/2 : ℝ))) := by
    norm_num [invRotate, rectRotangle, Real.cos_pi_div_two, Real.sin_pi_div_two]
  have hv : phaseFactor 1 ((0 : ℝ), (-(1/2 : ℝ))) ((1/2 : ℚ), (0 : ℚ)) = 1 := by
    norm_num [phaseFactor, Complex.exp_zero]
  have hb : (if inRect 1 2 ((0 : ℝ), (-(1/2 : ℝ))) then true else false) = true :=
    if_pos (by norm_num [inRect])
  norm_num [rectCore, hrot, hb, hv, boolIndex, maskSelect, scatter]

theorem collapse_one : collapse [1] = KernOut.rl [1] := by
  unfold collapse
  rw [if_pos]
  · simp
  · intro z hz
    simp at hz
    subst hz
    norm_num

theorem collapse_one_one : collapse [1, 1] = KernOut.rl [1, 1] := by
  unfold collapse
  rw [if_pos]
  · simp
  · intro z hz
    simp at hz
    rcases hz with rfl | rfl
    norm_num

theorem rectCore_evalOrigin :
    rectCore [((0 : ℚ), (0 : ℚ))] [1] 1 1 0 (0, 0) = Except.ok [1] := by
  classical
  norm_num [rectCore, rectRotangle, invRotate, inRect, boolIndex, maskSelect,
    scatter, phaseFactor, Real.cos_zero, Real.sin_zero, Complex.exp_zero]

theorem inputcheck_evalC8scal :
    inputcheck ⟨[2, 2], [0, 0, 1/5, 0]⟩ (WLArg.scal 1) 1 1 0 1 0 none
      = Except.ok dC8 := by
  norm_num [inputcheck, normLocsBranch, reshapeM2, parmscheck,
    NDArr.squeeze, NDArr.ndim, NDArr.size, dC8]

theorem inputcheck_evalC8arr :
    inputcheck ⟨[2, 2], [0, 0, 1/5, 0]⟩ (WLArg.arr ⟨[2], [1, 1]⟩) 1 1 0 1 0 none
      = Except.ok dC8arr := by
  norm_num [inputcheck, normLocsBranch, reshapeM2, parmscheck,
    NDArr.squeeze, NDArr.ndim, NDArr.size, dC8arr, dC8]

theorem toPairs_evalC8 : toPairs (⟨[2, 2], [0, 0, 1/5, 0]⟩ : NDArr)
    = [((0 : ℚ), (0 : ℚ)), ((1/5 : ℚ), (0 : ℚ))] := by
  norm_num [toPairs, chunkRows]

theorem rectCore_evalC8scal :
    rectCore [((0 : ℚ), (0 : ℚ)), ((1/5 : ℚ), (0 : ℚ))] [1] 1 1 0 (0, 0)
      = Except.error Err.indexError := by
  classical
  have hrot0 : invRotate (rectRotangle 1 1 0) (0 : ℚ × ℚ) = (0 : ℝ × ℝ) := by
    norm_num [invRotate, rectRotangle, Real.cos_zero, Real.sin_zero,
      Prod.ext_iff]
  have hrot1 : invRotate (rectRotangle 1 1 0) ((1/5 : ℚ), (0 : ℚ))
      = ((1/5 : ℝ), (0 : ℝ)) := by
    norm_num [invRotate, rectRotangle, Real.cos_zero, Real.sin_zero]
  have hb0 : (if inRect 1 1 (0 : ℝ × ℝ) then true else false) = true :=
    if_pos (by norm_num [inRect])
  have hb1 : (if inRect 1 1 ((1/5 : ℝ), (0 : ℝ)) then true else false) = true :=
    if_pos (by norm_num [inRect])
  norm_num [rectCore, hrot0, hrot1, hb0, hb1, boolIndex]

theorem rectCore_evalC8arr :
    rectCore [((0 : ℚ), (0 : ℚ)), ((1/5 : ℚ), (0 : ℚ))] [1, 1] 1 1 0 (0, 0)
      = Except.ok [1, 1] := by
  classical
  have hrot0 : invRotate (rectRotangle 1 1 0) (0 : ℚ × ℚ) = (0 : ℝ × ℝ) := by
    norm_num [invRotate, rectRotangle, Real.cos_zero, Real.sin_zero,
      Prod.ext_iff]
  have hrot1 : invRotate (rectRotangle 1 1 0) ((1/5 : ℚ), (0 : ℚ))
      = ((1/5 : ℝ), (0 : ℝ)) := by
    norm_num [invRotate, rectRotangle, Real.cos_zero, Real.sin_zero]
  have hb0 : (if inRect 1 1 (0 : ℝ × ℝ) then true else false) = true :=
    if_pos (by norm_num [inRect])
  have hb1 : (if inRect 1 1 ((1/5 : ℝ), (0 : ℝ)) then true else false) = true :=
    if_pos (by norm_num [inRect])
  have hv0 : phaseFactor 1 (0 : ℝ × ℝ) (0 : ℚ × ℚ) = 1 := by
    norm_num [phaseFactor, Complex.exp_zero]
  have hv1 : phaseFactor 1 ((1/5 : ℝ), (0 : ℝ)) (0 : ℚ × ℚ) = 1 := by
    norm_num [phaseFactor, Complex.exp_zero]
  norm_num [rectCore, hrot0, hrot1, hb0, hb1, hv0, hv1, boolIndex,
    maskSelect, scatter]

/-- C3 counterexample: the claim evaluates the phase at the raw input
location.  For the rectangle with `ymax = 2 > xmax = 1` (so the tie-break
adds `π/2` to the rotation) at location `(1/2, 0)` with pointing center
`(1/2, 0)` and unit wavelength, the code rotates the location to
`(0, -1/2)`, whose dot product with the pointing center vanishes, and
returns the real kernel `[1]`; the claimed value
`exp(-i·2π·(1/2·1/2)) = exp(-iπ/2) = -i` differs from it. -/
theorem rect_c3_phase_counterexample :
    rect ⟨[1, 2], [1/2, 0]⟩ (WLArg.scal 1) 1 2 0 (some [1/2, 0])
        = Except.ok (KernOut.rl [1]) ∧
      (1 : ℂ) ≠ phaseFactor 1 (((1/2 : ℚ) : ℝ), ((0 : ℚ) : ℝ)) (1/2, 0) := by
  constructor
  · simp only [rect]
    rw [inputcheck_evalC3]
    show rectCore (toPairs ⟨[1, 2], [1/2, 0]⟩) [1] 1 2 0 (1/2, 0)
        >>= (fun kern => (pure (collapse kern) : Res KernOut))
      = Except.ok (KernOut.rl [1])
    rw [toPairs_evalC3, rectCore_evalC3]
    show (pure (collapse [(1 : ℂ)]) : Res KernOut)
      = Except.ok (KernOut.rl [1])
    rw [collapse_one]
    rfl
  · intro heq
    have harg : phaseFactor 1 (((1/2 : ℚ) : ℝ), ((0 : ℚ) : ℝ)) (1/2, 0)
        = Complex.exp (((-(Real.pi / 2) : ℝ) : ℂ) * Complex.I) := by
      unfold phaseFactor
      congr 1
      push_cast
      ring
    rw [harg] at heq
    have him := congrArg Complex.im heq
    rw [Complex.exp_ofReal_mul_I_im] at him
    simp [Real.sin_pi_div_two] at him

/-- C3 witness: `rect_c3_inside_phase` applied at the single location
`(0, 0)` of an axis-aligned unit square with zenith pointing, whose kernel
entry is `1 = exp(0)`, and at a concrete circular call. -/
theorem rect_c3_witness :
    ([(1 : ℂ)].getD 0 0 = phaseFactor ([(1 : ℚ)].getD 0 0)
        (invRotate (rectRotangle 1 1 0) ([((0 : ℚ), (0 : ℚ))].getD 0 (0, 0)))
        ((0 : ℚ), (0 : ℚ))) ∧
      circular ⟨[1, 2], [0, 0]⟩ (WLArg.scal 1) 0 1 none
        ≠ Except.ok (KernOut.rl [1]) := by
  constructor
  · exact rect_c3_inside_phase.1 [((0 : ℚ), (0 : ℚ))] [1] 1 1 0
      ((0 : ℚ), (0 : ℚ)) [1] rfl rectCore_evalOrigin 0 (by norm_num)
      (by norm_num [inRect, invRotate, rectRotangle])
  · exact rect_c3_inside_phase.2 ⟨[1, 2], [0, 0]⟩ (WLArg.scal 1) 0 1 none
      (KernOut.rl [1])

/-- C8: the claim says a scalar wavelength behaves like an array of that
scalar repeated per location.  For two locations inside the footprint the
scalar call fails with `IndexError` (the boolean mask indexes the size-1
wavelength array out of bounds, `aperture.py` line 338), while the call
with the repeated array `[1, 1]` returns the kernel `[1, 1]`. -/
theorem rect_c8_scalar_wavelength_indexerror :
    rect ⟨[2, 2], [0, 0, 1/5, 0]⟩ (WLArg.scal 1) 1 1 0 none
        = Except.error Err.indexError ∧
      rect ⟨[2, 2], [0, 0, 1/5, 0]⟩ (WLArg.arr ⟨[2], [1, 1]⟩) 1 1 0 none
        = Except.ok (KernOut.rl [1, 1]) := by
  constructor
  · simp only [rect]
    rw [inputcheck_evalC8scal]
    show rectCore (toPairs ⟨[2, 2], [0, 0, 1/5, 0]⟩) [1] 1 1 0 (0, 0)
        >>= (fun kern => (pure (collapse kern) : Res KernOut))
      = Except.error Err.indexError
    rw [toPairs_evalC8, rectCore_evalC8scal]
    rfl
  · simp only [rect]
    rw [inputcheck_evalC8arr]
    show rectCore (toPairs ⟨[2, 2], [0, 0, 1/5, 0]⟩) [1, 1] 1 1 0 (0, 0)
        >>= (fun kern => (pure (collapse kern) : Res KernOut))
      = Except.ok (KernOut.rl [1, 1])
    rw [toPairs_evalC8, rectCore_evalC8arr]
    show (pure (collapse [(1 : ℂ), 1]) : Res KernOut)
      = Except.ok (KernOut.rl [1, 1])
    rw [collapse_one_one]
    rfl

end EPIC
